import Mathlib

/-!
Verification of the WebSocket subscription engine of the nimiq-rpc client
(`src/client/web-socket.ts`), shallowly embedded in Lean.

The embedding follows the source:
* `deriveWsUrl` mirrors the `WebSocketClient` constructor, which computes
  `new URL(url.replace(/^http/, "ws"))` and then assigns `wsUrl.pathname = "/ws"`.
* `EngineState`/`step` give a small-step semantics of the closure state of
  `WebSocketClient.subscribe` (`client`, `disconnects`, `subscriptionId`,
  `forceClose`) together with the event handlers registered in `createClient`
  (`onNotification`, `onError`, the `open`/`close` listeners, `onerror`), the
  `reconnect`/`requestSubscription` helpers, and the returned handle's `close`.
  Events model the stimuli the transport / timer queue / caller can produce.
-/

set_option autoImplicit false
set_option linter.unnecessarySeqFocus false

namespace NimiqRpc

/-! ### URL derivation (`WebSocketClient` constructor) -/

/-- A parsed URL: scheme, host (including port) and path.  `new URL` of a
string with an empty path yields pathname `"/"`. -/
structure URLModel where
  scheme : String
  host : String
  pathname : String
deriving DecidableEq, Repr

/-- Mirrors `url.replace(/^http/, "ws")`: the regex anchors at the start of the
URL string, i.e. at the scheme, so a leading `"http"` becomes `"ws"` (hence
`"https"` becomes `"wss"`); any other scheme is left unchanged.  Stated on the
character list of the scheme so that it reduces definitionally. -/
def replaceHttpWithWs (scheme : String) : String :=
  if scheme.data.take 4 = ['h', 't', 't', 'p'] then
    String.mk (['w', 's'] ++ scheme.data.drop 4)
  else scheme

/-- Mirrors the constructor body:
`const wsUrl = new URL(url.replace(/^http/, "ws")); wsUrl.pathname = "/ws";`.
The pathname is assigned unconditionally, so whatever path the input URL had
is overwritten. -/
def deriveWsUrl (u : URLModel) : URLModel :=
  { scheme := replaceHttpWithWs u.scheme, host := u.host, pathname := "/ws" }

/-! ### The subscription engine (`WebSocketClient.subscribe`)

The closure created by `subscribe` holds four mutable variables
(`client`, `disconnects`, `subscriptionId`, `forceClose`); `createClient`
registers the notification handler, the protocol-error handler, the
`open`/`close` listeners and the connection `onerror` hook.  We embed this as
an explicit state record plus a step function over the events the transport,
the timer queue and the caller can produce.  Counters record the observable
side effects (callback invocations, requests put on the wire, actual socket
closes) so that temporal claims become statements about runs. -/

/-- The JSON-RPC request descriptor (`RequestArguments`): a method name and
positional params.  Params are kept abstract as their JSON encodings. -/
structure RequestArguments where
  method : String
  params : List String
deriving DecidableEq, Repr

/-- `WebsocketClientOptions` from the source. -/
structure WebsocketClientOptions where
  callTimeout : Nat
  reconnectTimeout : Nat
  maxReconnects : Nat
deriving DecidableEq, Repr

/-- `DEFAULT_CLIENT_OPTIONS` from the source. -/
def DEFAULT_CLIENT_OPTIONS : WebsocketClientOptions :=
  { callTimeout := 30000, reconnectTimeout := 3000, maxReconnects := 5 }

/-- The notification payload `RPCData<Data, Metadata>` handed to `onMessage`.
The `data` field is modelled as the integer the scenario filters inspect
(`data.number`); metadata is kept opaque. -/
structure RPCDataM where
  data : Int
  metadata : Option String
deriving DecidableEq, Repr

/-- `WebsocketStreamOptions`: the optional filter predicate over the payload's
`data` field.  `none` models a stream-options object without a `filter`
property (JS `undefined`, falsy). -/
structure WebsocketStreamOptions where
  filter : Option (Int → Bool)

/-- `DEFAULT_STREAM_OPTIONS` from the source: an accept-all filter. -/
def DEFAULT_STREAM_OPTIONS : WebsocketStreamOptions :=
  { filter := some fun _ => true }

/-- Lifecycle of one underlying WebSocket connection: it is created in the
`connecting` state, may fire `open` once, and fires `close` once (either a
failed connect or a disconnect); a closed socket never reopens. -/
inductive ConnState where
  | connecting
  | opened
  | closed
deriving DecidableEq, Repr, BEq

/-- The state of one `subscribe` closure, together with observation logs.

Mutable closure variables of the source: `disconnects`, `subscriptionId`,
`forceClose`, and `client` (modelled by `clientExists` plus the connection
state `conn` of the current client's transport).  `pendingTimers` counts
reconnect timers scheduled by the `close` listener and not yet fired;
`pendingRequest` records an in-flight `client.request` round trip;
`firstDone`/`rejected` record how the `await requestSubscription(this.url)`
in `subscribe` settled.  `request`, `opts` and `stream` are the captured
arguments (never written by any handler).

Observations: `delivered` is the sequence of payloads passed to
`wsCallbacks.onMessage`, `issued` the sequence of subscription requests put on
the wire, `reconnectAttempts` the number of times `reconnect` ran,
`transportCloses` the number of `client.close()` calls that actually closed a
not-yet-closed socket, `connErrors` the number of `onConnectionError`
invocations. -/
structure EngineState where
  request : RequestArguments
  opts : WebsocketClientOptions
  stream : WebsocketStreamOptions
  disconnects : Nat
  subscriptionId : Nat
  forceClose : Bool
  clientExists : Bool
  conn : ConnState
  pendingTimers : Nat
  pendingRequest : Bool
  firstDone : Bool
  rejected : Bool
  delivered : List RPCDataM
  issued : List RequestArguments
  reconnectAttempts : Nat
  transportCloses : Nat
  connErrors : Nat

/-- Events driving the engine: transport events on the current client's
connection (`closeEvt`, `openEvt`, `notifyEvt`, `connError`), completion of an
in-flight subscribe round trip (`requestOk`, `requestErr`), the firing of a
scheduled reconnect timer (`timerFire`, running `reconnect`), and the caller
invoking the handle's `close` (`callClose`). -/
inductive Event where
  | closeEvt
  | openEvt
  | notifyEvt (r : RPCDataM)
  | connError
  | timerFire
  | requestOk (i : Nat)
  | requestErr
  | callClose
deriving DecidableEq, Repr

/-- One step of the engine.  Each branch is the direct transcription of one
handler of the source:

* `closeEvt` — the socket transitions to `closed`; then the `close` listener
  (web-socket.ts:178-188): return early under `forceClose`, else
  `disconnects++` and schedule a reconnect timer iff
  `disconnects <= options.maxReconnects`.
* `openEvt` — the `open` listener (174-176): `disconnects = 0`.
* `notifyEvt` — `client.onNotification` (159-168): drop when a filter is
  present and rejects `result.data`, otherwise `onMessage?.(result)`.
* `connError` — `connection.onerror` (190-192): `onConnectionError?.(...)`.
* `timerFire` — the body of `reconnect` (197-202) up to its await:
  `client?.close(); client = null;` then `requestSubscription` (204-210)
  creates a fresh client and puts the original `request` on the wire.  Note
  that `forceClose` is NOT consulted here.
* `requestOk`/`requestErr` — settlement of `client.request`
  (`subscriptionId = await requestSubscription(url)`); only the first
  settlement resolves/rejects the promise `subscribe` returned.
* `callClose` — the handle's `close` (214-218): `forceClose = true;
  client?.close()`, where closing an already-closed socket is a no-op. -/
def step (s : EngineState) : Event → EngineState
  | .closeEvt =>
    if s.clientExists = true ∧ ¬s.conn = ConnState.closed then
      if s.forceClose then { s with conn := ConnState.closed }
      else if s.disconnects + 1 ≤ s.opts.maxReconnects then
        { s with conn := ConnState.closed,
                 disconnects := s.disconnects + 1,
                 pendingTimers := s.pendingTimers + 1 }
      else { s with conn := ConnState.closed,
                    disconnects := s.disconnects + 1 }
    else s
  | .openEvt =>
    if s.clientExists = true ∧ s.conn = ConnState.connecting then
      { s with conn := ConnState.opened, disconnects := 0 }
    else s
  | .notifyEvt r =>
    if s.clientExists = true ∧ s.conn = ConnState.opened then
      match s.stream.filter with
      | some f =>
        if f r.data then { s with delivered := s.delivered ++ [r] } else s
      | none => { s with delivered := s.delivered ++ [r] }
    else s
  | .connError =>
    if s.clientExists = true then { s with connErrors := s.connErrors + 1 }
    else s
  | .timerFire =>
    if 0 < s.pendingTimers then
      let s1 :=
        if s.clientExists = true ∧ ¬s.conn = ConnState.closed then
          { s with pendingTimers := s.pendingTimers - 1,
                   conn := ConnState.closed,
                   transportCloses := s.transportCloses + 1 }
        else { s with pendingTimers := s.pendingTimers - 1 }
      { s1 with clientExists := true,
                conn := ConnState.connecting,
                issued := s1.issued ++ [s1.request],
                pendingRequest := true,
                reconnectAttempts := s1.reconnectAttempts + 1 }
    else s
  | .requestOk i =>
    if s.pendingRequest = true then
      if s.firstDone = true ∨ s.rejected = true then
        { s with pendingRequest := false, subscriptionId := i }
      else
        { s with pendingRequest := false, subscriptionId := i,
                 firstDone := true }
    else s
  | .requestErr =>
    if s.pendingRequest = true then
      if s.firstDone = true ∨ s.rejected = true then
        { s with pendingRequest := false }
      else { s with pendingRequest := false, rejected := true }
    else s
  | .callClose =>
    if s.clientExists = true ∧ ¬s.conn = ConnState.closed then
      { s with forceClose := true,
               conn := ConnState.closed,
               transportCloses := s.transportCloses + 1 }
    else { s with forceClose := true }

/-- Run the engine over a list of events. -/
def run (s : EngineState) (evs : List Event) : EngineState :=
  evs.foldl step s

/-- The state right after `subscribe` executed
`subscriptionId = await requestSubscription(this.url)` far enough to create
the first client and put the subscribe request on the wire: a fresh client is
connecting, the round trip is in flight, nothing observed yet. -/
def initState (req : RequestArguments) (opts : WebsocketClientOptions)
    (stream : WebsocketStreamOptions) : EngineState :=
  { request := req, opts := opts, stream := stream,
    disconnects := 0, subscriptionId := 0, forceClose := false,
    clientExists := true, conn := ConnState.connecting,
    pendingTimers := 0, pendingRequest := true,
    firstDone := false, rejected := false,
    delivered := [], issued := [req],
    reconnectAttempts := 0, transportCloses := 0, connErrors := 0 }

/-- A subscribe request used for the concrete scenarios. -/
def headBlockRequest : RequestArguments :=
  { method := "subscribeForHeadBlock", params := ["false"] }

/-- Options of Scenario A: `maxReconnectAttempts = 2`, `reconnectDelayMs = 10`. -/
def scenarioAOptions : WebsocketClientOptions :=
  { callTimeout := 30000, reconnectTimeout := 10, maxReconnects := 2 }

/-- Scenario A start state: subscribed successfully, connection live. -/
def scenarioAState : EngineState :=
  run (initState headBlockRequest scenarioAOptions DEFAULT_STREAM_OPTIONS)
    [Event.openEvt, Event.requestOk 1]

/-- Scenario A stimulus: three consecutive disconnects, each scheduled
reconnect fires and its re-subscription fails, with no successful reconnect
in between. -/
def scenarioATrace : List Event :=
  [Event.closeEvt, Event.timerFire, Event.requestErr,
   Event.closeEvt, Event.timerFire, Event.requestErr,
   Event.closeEvt]

/-- Stream options of Scenario B: filter `data => data.number % 2 === 0`. -/
def evenStreamOptions : WebsocketStreamOptions :=
  { filter := some fun n => n % 2 == 0 }

/-- Scenario B start state: subscribed with the even filter, connection live. -/
def scenarioBState : EngineState :=
  run (initState headBlockRequest DEFAULT_CLIENT_OPTIONS evenStreamOptions)
    [Event.openEvt, Event.requestOk 1]

/-- Scenario B payloads: `data.number` = 1, 2, 3, 4. -/
def scenarioBPayloads : List RPCDataM :=
  [⟨1, none⟩, ⟨2, none⟩, ⟨3, none⟩, ⟨4, none⟩]

/-- Stream options passed as an object without a `filter` property. -/
def noFilterStreamOptions : WebsocketStreamOptions :=
  { filter := none }

/-- A live subscription used by the close-idempotence witness. -/
def closeDemoState : EngineState :=
  run (initState headBlockRequest DEFAULT_CLIENT_OPTIONS DEFAULT_STREAM_OPTIONS)
    [Event.openEvt, Event.requestOk 3]

/-- A live subscription whose stream options carry no filter property. -/
def noFilterState : EngineState :=
  run (initState headBlockRequest DEFAULT_CLIENT_OPTIONS noFilterStreamOptions)
    [Event.openEvt, Event.requestOk 1]

/-! ### Basic run lemmas -/

theorem run_nil (s : EngineState) : run s [] = s := rfl

theorem run_cons (s : EngineState) (e : Event) (evs : List Event) :
    run s (e :: evs) = run (step s e) evs := rfl

/-- No handler writes the captured `request` argument. -/
theorem step_request (s : EngineState) (e : Event) :
    (step s e).request = s.request := by
  cases e <;> simp only [step] <;> (repeat' split) <;> rfl

/-- No handler writes the captured `opts` argument. -/
theorem step_opts (s : EngineState) (e : Event) :
    (step s e).opts = s.opts := by
  cases e <;> simp only [step] <;> (repeat' split) <;> rfl

/-- No handler writes the captured `stream` argument. -/
theorem step_stream (s : EngineState) (e : Event) :
    (step s e).stream = s.stream := by
  cases e <;> simp only [step] <;> (repeat' split) <;> rfl

theorem run_request (s : EngineState) (evs : List Event) :
    (run s evs).request = s.request := by
  induction evs generalizing s with
  | nil => rfl
  | cons e evs ih => rw [run_cons, ih, step_request]

theorem run_opts (s : EngineState) (evs : List Event) :
    (run s evs).opts = s.opts := by
  induction evs generalizing s with
  | nil => rfl
  | cons e evs ih => rw [run_cons, ih, step_opts]

/-! ### Reconnect-budget potential

`phi` packs the retry bookkeeping into one quantity: attempts already made,
timers still pending, and the remaining budget `maxReconnects - disconnects`.
Every event except a successful `open` leaves it unchanged, which bounds the
total number of reconnect attempts. -/

/-- Reconnect potential of a state. -/
def phi (s : EngineState) : Nat :=
  s.reconnectAttempts + s.pendingTimers +
    (s.opts.maxReconnects - min s.disconnects s.opts.maxReconnects)

theorem phi_step (s : EngineState) (e : Event) (h : e ≠ Event.openEvt) :
    phi (step s e) = phi s := by
  cases e with
  | openEvt => exact absurd rfl h
  | closeEvt =>
    simp only [step] <;> (repeat' split) <;> (simp only [phi]; try omega)
  | timerFire =>
    simp only [step] <;> (repeat' split) <;> (simp only [phi]; try omega)
  | notifyEvt r =>
    simp only [step] <;> (repeat' split) <;> rfl
  | connError =>
    simp only [step] <;> (repeat' split) <;> rfl
  | requestOk i =>
    simp only [step] <;> (repeat' split) <;> rfl
  | requestErr =>
    simp only [step] <;> (repeat' split) <;> rfl
  | callClose =>
    simp only [step] <;> (repeat' split) <;> rfl

theorem phi_run (evs : List Event) (s : EngineState)
    (h : ∀ e ∈ evs, e ≠ Event.openEvt) : phi (run s evs) = phi s := by
  induction evs generalizing s with
  | nil => rfl
  | cons e evs ih =>
    rw [run_cons, ih (step s e) (fun e' he' => h e' (List.mem_cons_of_mem _ he')),
        phi_step s e (h e (List.mem_cons_self _ _))]

theorem attempts_le_phi (s : EngineState) : s.reconnectAttempts ≤ phi s := by
  simp only [phi]
  omega

/-! ### Request-replay invariant -/

theorem step_issued (s : EngineState) (e : Event) :
    (step s e).issued = s.issued ∨ (step s e).issued = s.issued ++ [s.request] := by
  cases e <;> simp only [step] <;> (repeat' split) <;> simp

theorem issued_inv (evs : List Event) (s : EngineState)
    (h : ∀ r ∈ s.issued, r = s.request) :
    ∀ r ∈ (run s evs).issued, r = s.request := by
  induction evs generalizing s with
  | nil => exact h
  | cons e evs ih =>
    intro r hmem
    rw [run_cons] at hmem
    have h' : ∀ r ∈ (step s e).issued, r = (step s e).request := by
      rw [step_request]
      rcases step_issued s e with he | he <;> rw [he]
      · exact h
      · intro r hr
        rcases List.mem_append.mp hr with h1 | h1
        · exact h r h1
        · simpa using h1
    have := ih (step s e) h' r hmem
    rwa [step_request s e] at this

/-! ### Close, first-settlement and notification step lemmas -/

theorem step_close_close (s : EngineState) :
    step (step s Event.callClose) Event.callClose = step s Event.callClose := by
  by_cases h : s.clientExists = true ∧ ¬s.conn = ConnState.closed
  · simp [step, h]
  · simp [step, h]

theorem step_close_schedules (t : EngineState) (hc : t.clientExists = true)
    (ho : t.conn = ConnState.opened) (hfc : t.forceClose = false)
    (hd : t.disconnects = 0) (hK : 1 ≤ t.opts.maxReconnects) :
    (step t Event.closeEvt).pendingTimers = t.pendingTimers + 1 := by
  have hcond : t.clientExists = true ∧ ¬t.conn = ConnState.closed := by
    refine ⟨hc, ?_⟩
    rw [ho]
    simp
  simp only [step, if_pos hcond]
  rw [if_neg (by simp [hfc]), if_pos (by omega)]

theorem step_requestOk_fields (t : EngineState) (i : Nat)
    (hp : t.pendingRequest = true) :
    (step t (Event.requestOk i)).disconnects = t.disconnects ∧
    (step t (Event.requestOk i)).subscriptionId = i ∧
    (step t (Event.requestOk i)).pendingTimers = t.pendingTimers ∧
    (step t (Event.requestOk i)).clientExists = t.clientExists ∧
    (step t (Event.requestOk i)).conn = t.conn ∧
    (step t (Event.requestOk i)).forceClose = t.forceClose ∧
    (step t (Event.requestOk i)).opts = t.opts := by
  simp only [step, if_pos hp]
  split <;> exact ⟨rfl, rfl, rfl, rfl, rfl, rfl, rfl⟩

theorem step_no_requestOk_firstDone (s : EngineState) (e : Event)
    (h : ∀ i, e ≠ Event.requestOk i) (hf : s.firstDone = false) :
    (step s e).firstDone = false := by
  cases e with
  | requestOk i => exact absurd rfl (h i)
  | closeEvt => simp only [step] <;> (repeat' split) <;> exact hf
  | openEvt => simp only [step] <;> (repeat' split) <;> exact hf
  | notifyEvt r => simp only [step] <;> (repeat' split) <;> exact hf
  | connError => simp only [step] <;> (repeat' split) <;> exact hf
  | timerFire => simp only [step] <;> (repeat' split) <;> exact hf
  | requestErr => simp only [step] <;> (repeat' split) <;> exact hf
  | callClose => simp only [step] <;> (repeat' split) <;> exact hf

theorem step_notify_some (s : EngineState) (f : Int → Bool) (d : RPCDataM)
    (hf : s.stream.filter = some f) (hc : s.clientExists = true)
    (ho : s.conn = ConnState.opened) :
    step s (Event.notifyEvt d)
      = { s with delivered := s.delivered ++ (if f d.data then [d] else []) } := by
  have hcond : s.clientExists = true ∧ s.conn = ConnState.opened := ⟨hc, ho⟩
  simp only [step, hf, if_pos hcond]
  cases hfd : f d.data <;> simp [hfd]

theorem step_notify_none (s : EngineState) (d : RPCDataM)
    (hf : s.stream.filter = none) (hc : s.clientExists = true)
    (ho : s.conn = ConnState.opened) :
    step s (Event.notifyEvt d) = { s with delivered := s.delivered ++ [d] } := by
  have hcond : s.clientExists = true ∧ s.conn = ConnState.opened := ⟨hc, ho⟩
  simp only [step, hf, if_pos hcond]

end NimiqRpc

namespace NimiqRpc

/-- Claim C6 (counterexample): the code does NOT preserve an already-specified
path; for input `http://localhost:8648/custom` the derived WebSocket URL has
path `/ws`, not `/custom`. -/
theorem c6_path_counterexample :
    (deriveWsUrl ⟨"http", "localhost:8648", "/custom"⟩).pathname = "/ws" ∧
    (deriveWsUrl ⟨"http", "localhost:8648", "/custom"⟩).pathname ≠ "/custom" := by
  constructor
  · rfl
  · decide

/-- Claim C6 (amended): the WebSocket endpoint is derived by replacing a
leading `http` of the scheme with `ws` (so `http` becomes `ws` and `https`
becomes `wss`), the host is preserved, and the path is forced to `/ws`
unconditionally — also when the input URL already has a path.  For endpoint
`http://localhost:8648` (pathname `/`) the result is `ws://localhost:8648/ws`. -/
theorem c6_url_derivation_amended :
    (∀ u : URLModel, (deriveWsUrl u).pathname = "/ws" ∧ (deriveWsUrl u).host = u.host) ∧
    replaceHttpWithWs "http" = "ws" ∧
    replaceHttpWithWs "https" = "wss" ∧
    deriveWsUrl ⟨"http", "localhost:8648", "/"⟩ = ⟨"ws", "localhost:8648", "/ws"⟩ := by
  refine ⟨fun u => ⟨rfl, rfl⟩, ?_, ?_, ?_⟩ <;> decide

/-- Claim C1 (refuting evaluation): `reconnect` does not consult `forceClose`,
so a reconnect whose timer was already scheduled when `close()` ran still
creates a fresh client, re-subscribes, and the new connection is adopted as
live — it is not closed, and it delivers a notification.  Trace: connect,
subscribe resolves, unexpected disconnect (schedules a reconnect timer),
caller invokes `close()`, the timer fires, the new socket opens, the replayed
subscribe resolves, and a notification arrives. -/
theorem c1_zombie_connection_adopted :
    (run (initState headBlockRequest DEFAULT_CLIENT_OPTIONS DEFAULT_STREAM_OPTIONS)
        [Event.openEvt, Event.requestOk 1, Event.closeEvt, Event.callClose,
         Event.timerFire, Event.openEvt, Event.requestOk 7,
         Event.notifyEvt ⟨5, none⟩]).forceClose = true ∧
    (run (initState headBlockRequest DEFAULT_CLIENT_OPTIONS DEFAULT_STREAM_OPTIONS)
        [Event.openEvt, Event.requestOk 1, Event.closeEvt, Event.callClose,
         Event.timerFire, Event.openEvt, Event.requestOk 7,
         Event.notifyEvt ⟨5, none⟩]).conn = ConnState.opened ∧
    (run (initState headBlockRequest DEFAULT_CLIENT_OPTIONS DEFAULT_STREAM_OPTIONS)
        [Event.openEvt, Event.requestOk 1, Event.closeEvt, Event.callClose,
         Event.timerFire, Event.openEvt, Event.requestOk 7,
         Event.notifyEvt ⟨5, none⟩]).delivered = [⟨5, none⟩] := by
  refine ⟨rfl, rfl, rfl⟩

/-- Claim C3 (refuting evaluation): after `close()` returns (force-close flag
set, `delivered` still empty), a reconnect timer that was pending when
`close()` ran still fires, runs `reconnect`, and the resulting connection
delivers a notification to `onMessage` — so notification delivery is not
suppressed by a caller-initiated close. -/
theorem c3_notification_after_close :
    (run (initState headBlockRequest DEFAULT_CLIENT_OPTIONS DEFAULT_STREAM_OPTIONS)
        [Event.openEvt, Event.requestOk 1, Event.closeEvt,
         Event.callClose]).forceClose = true ∧
    (run (initState headBlockRequest DEFAULT_CLIENT_OPTIONS DEFAULT_STREAM_OPTIONS)
        [Event.openEvt, Event.requestOk 1, Event.closeEvt,
         Event.callClose]).delivered = [] ∧
    (run (run (initState headBlockRequest DEFAULT_CLIENT_OPTIONS DEFAULT_STREAM_OPTIONS)
          [Event.openEvt, Event.requestOk 1, Event.closeEvt, Event.callClose])
        [Event.timerFire, Event.openEvt,
         Event.notifyEvt ⟨42, none⟩]).delivered = [⟨42, none⟩] ∧
    (run (run (initState headBlockRequest DEFAULT_CLIENT_OPTIONS DEFAULT_STREAM_OPTIONS)
          [Event.openEvt, Event.requestOk 1, Event.closeEvt, Event.callClose])
        [Event.timerFire, Event.openEvt,
         Event.notifyEvt ⟨42, none⟩]).reconnectAttempts = 1 := by
  refine ⟨rfl, rfl, rfl, rfl⟩

/-- Claim C5 (counterexample): when the very first connection fails, the
`close`/`onerror` hooks installed by `createClient` are already active, so
although the promise returned by `subscribe` rejects, the close event of the
failed socket still increments `disconnects` and schedules a reconnect, which
fires and replays the request; and the connection error IS also reported via
`onConnectionError`.  This contradicts "no reconnect attempt is made" and
"not delivered via onConnectionError". -/
theorem c5_initial_failure_counterexample :
    (run (initState headBlockRequest DEFAULT_CLIENT_OPTIONS DEFAULT_STREAM_OPTIONS)
        [Event.connError, Event.closeEvt, Event.requestErr,
         Event.timerFire]).rejected = true ∧
    (run (initState headBlockRequest DEFAULT_CLIENT_OPTIONS DEFAULT_STREAM_OPTIONS)
        [Event.connError, Event.closeEvt, Event.requestErr,
         Event.timerFire]).reconnectAttempts = 1 ∧
    (run (initState headBlockRequest DEFAULT_CLIENT_OPTIONS DEFAULT_STREAM_OPTIONS)
        [Event.connError, Event.closeEvt, Event.requestErr,
         Event.timerFire]).connErrors = 1 ∧
    (run (initState headBlockRequest DEFAULT_CLIENT_OPTIONS DEFAULT_STREAM_OPTIONS)
        [Event.connError, Event.closeEvt, Event.requestErr,
         Event.timerFire]).issued =
      [headBlockRequest, headBlockRequest] := by
  refine ⟨rfl, rfl, rfl, rfl⟩

/-- Claim C5 (amended): a transport error on the very first subscribe call is
propagated as a rejection of the promise `subscribe` returned, and that
promise resolves only after the first successful subscription round trip
(`firstDone` can only become true through a `requestOk` settlement); however,
because the close/error hooks are already installed, the failed connection's
close event still schedules a reconnect and the error is also reported via
`onConnectionError` (see the counterexample). -/
theorem c5_initial_failure_amended :
    (∀ (s : EngineState) (evs : List Event),
        s.firstDone = false →
        (∀ e ∈ evs, ∀ i, e ≠ Event.requestOk i) →
        (run s evs).firstDone = false) ∧
    (∀ s : EngineState, s.pendingRequest = true → s.firstDone = false →
        s.rejected = false → (step s Event.requestErr).rejected = true) := by
  constructor
  · intro s evs
    induction evs generalizing s with
    | nil => intro hf _; exact hf
    | cons e evs ih =>
      intro hf h
      rw [run_cons]
      exact ih (step s e)
        (step_no_requestOk_firstDone s e (h e (List.mem_cons_self _ _)) hf)
        (fun e' he' => h e' (List.mem_cons_of_mem _ he'))
  · intro s hp hf hr
    simp [step, hp, hf, hr]

/-- Witness for C5 (amended), at the freshly created engine state: the first
round trip failing marks the subscribe call rejected. -/
theorem c5_initial_failure_amended_witness :
    (step (initState headBlockRequest DEFAULT_CLIENT_OPTIONS DEFAULT_STREAM_OPTIONS)
        Event.requestErr).rejected = true :=
  c5_initial_failure_amended.2
    (initState headBlockRequest DEFAULT_CLIENT_OPTIONS DEFAULT_STREAM_OPTIONS)
    rfl rfl rfl

/-- Claim C2: the reconnect budget.  (1) From a state with zero disconnects and
no pending timers, any run without a successful open makes at most
`maxReconnects` reconnect attempts.  (2) Once `disconnects` has reached the
budget, a further close event schedules nothing.  (3) Scenario A: with
`maxReconnects = 2`, three consecutive disconnects with failing reconnects
yield exactly 2 reconnect attempts, no pending timer remains, and a further
close still schedules nothing. -/
theorem c2_reconnect_bound :
    (∀ (s : EngineState) (evs : List Event),
        s.disconnects = 0 → s.pendingTimers = 0 → s.reconnectAttempts = 0 →
        (∀ e ∈ evs, e ≠ Event.openEvt) →
        (run s evs).reconnectAttempts ≤ s.opts.maxReconnects) ∧
    (∀ s : EngineState, s.opts.maxReconnects ≤ s.disconnects →
        (step s Event.closeEvt).pendingTimers = s.pendingTimers) ∧
    ((run scenarioAState scenarioATrace).reconnectAttempts = 2 ∧
     (run scenarioAState scenarioATrace).pendingTimers = 0 ∧
     (step (run scenarioAState scenarioATrace) Event.closeEvt).pendingTimers
       = 0) := by
  refine ⟨?_, ?_, rfl, rfl, rfl⟩
  · intro s evs h0 hp ha hopen
    have h1 := attempts_le_phi (run s evs)
    rw [phi_run evs s hopen] at h1
    simp only [phi, h0, hp, ha] at h1
    omega
  · intro s h
    by_cases hcond : s.clientExists = true ∧ ¬s.conn = ConnState.closed
    · simp only [step, if_pos hcond]
      by_cases hfc : s.forceClose = true
      · rw [if_pos hfc]
      · rw [if_neg hfc, if_neg (by omega)]
    · simp only [step, if_neg hcond]

/-- Witness for C2's universally quantified bound, at Scenario A's options and
a short disconnect trace. -/
theorem c2_reconnect_bound_witness :
    (run (initState headBlockRequest scenarioAOptions DEFAULT_STREAM_OPTIONS)
        [Event.closeEvt, Event.timerFire, Event.closeEvt]).reconnectAttempts ≤
      (initState headBlockRequest scenarioAOptions
        DEFAULT_STREAM_OPTIONS).opts.maxReconnects :=
  c2_reconnect_bound.1
    (initState headBlockRequest scenarioAOptions DEFAULT_STREAM_OPTIONS)
    [Event.closeEvt, Event.timerFire, Event.closeEvt] rfl rfl rfl (by decide)

/-- Claim C4: on a live connection with filter `f` installed, each notification
payload is handed to `onMessage` iff `f` accepts its `data`, rejected payloads
are dropped with no callback, and accepted ones are delivered in arrival
order; Scenario B (filter `data => data.number % 2 === 0`, payloads 1,2,3,4)
delivers exactly 2 and 4. -/
theorem c4_filter_correctness :
    (∀ (s : EngineState) (f : Int → Bool) (ds : List RPCDataM),
        s.stream.filter = some f → s.clientExists = true →
        s.conn = ConnState.opened →
        (run s (ds.map Event.notifyEvt)).delivered
          = s.delivered ++ ds.filter (fun r => f r.data)) ∧
    (run scenarioBState (scenarioBPayloads.map Event.notifyEvt)).delivered
      = [⟨2, none⟩, ⟨4, none⟩] := by
  constructor
  · intro s f ds
    induction ds generalizing s with
    | nil => intro _ _ _; simp [run]
    | cons d ds ih =>
      intro hf hc ho
      rw [List.map_cons, run_cons, step_notify_some s f d hf hc ho,
          ih { s with delivered := s.delivered ++ (if f d.data then [d] else []) }
            hf hc ho]
      cases hfd : f d.data <;> simp [hfd, List.filter_cons]
  · rfl

/-- Witness for C4's quantified part at Scenario B's state and payloads. -/
theorem c4_filter_correctness_witness :
    (run scenarioBState (scenarioBPayloads.map Event.notifyEvt)).delivered
      = scenarioBState.delivered
        ++ scenarioBPayloads.filter (fun r => r.data % 2 == 0) :=
  c4_filter_correctness.1 scenarioBState (fun n => n % 2 == 0)
    scenarioBPayloads rfl rfl rfl

/-- Claim C10: a stream-options object without a `filter` property behaves as
accept-all — every inbound notification on the live connection is delivered
to `onMessage`. -/
theorem c10_missing_filter_accepts_all :
    ∀ (s : EngineState) (ds : List RPCDataM),
      s.stream.filter = none → s.clientExists = true →
      s.conn = ConnState.opened →
      (run s (ds.map Event.notifyEvt)).delivered = s.delivered ++ ds := by
  intro s ds
  induction ds generalizing s with
  | nil => intro _ _ _; simp [run]
  | cons d ds ih =>
    intro hf hc ho
    rw [List.map_cons, run_cons, step_notify_none s d hf hc ho,
        ih { s with delivered := s.delivered ++ [d] } hf hc ho]
    simp

/-- Witness for C10 at a live filterless subscription and four payloads. -/
theorem c10_missing_filter_accepts_all_witness :
    (run noFilterState (scenarioBPayloads.map Event.notifyEvt)).delivered
      = noFilterState.delivered ++ scenarioBPayloads :=
  c10_missing_filter_accepts_all noFilterState scenarioBPayloads rfl rfl rfl

/-- Claim C7: every request the engine ever puts on the wire — the initial
subscribe and every reconnect replay — is the exact original request
descriptor, for every event trace. -/
theorem c7_request_replay :
    ∀ (req : RequestArguments) (opts : WebsocketClientOptions)
      (stream : WebsocketStreamOptions) (evs : List Event)
      (r : RequestArguments),
      r ∈ (run (initState req opts stream) evs).issued → r = req := by
  intro req opts stream evs r hr
  have hinit : ∀ x ∈ (initState req opts stream).issued,
      x = (initState req opts stream).request := by
    intro x hx
    simpa [initState] using hx
  exact issued_inv evs (initState req opts stream) hinit r hr

/-- Witness for C7: after a disconnect and a fired reconnect timer, the
replayed request found on the wire is the original one. -/
theorem c7_request_replay_witness : headBlockRequest = headBlockRequest :=
  c7_request_replay headBlockRequest DEFAULT_CLIENT_OPTIONS
    DEFAULT_STREAM_OPTIONS [Event.closeEvt, Event.timerFire] headBlockRequest
    (by decide)

/-- Claim C8: a successful reconnect round (socket opens, re-subscription
resolves with identity `i`) resets the disconnect counter to zero and updates
the subscription identity to `i`; a subsequent isolated disconnect again
schedules a retry (fresh budget). -/
theorem c8_reconnect_resets_counter :
    ∀ (s : EngineState) (i : Nat),
      s.clientExists = true → s.conn = ConnState.connecting →
      s.pendingRequest = true → s.forceClose = false →
      1 ≤ s.opts.maxReconnects →
      (run s [Event.openEvt, Event.requestOk i]).disconnects = 0 ∧
      (run s [Event.openEvt, Event.requestOk i]).subscriptionId = i ∧
      (step (run s [Event.openEvt, Event.requestOk i])
          Event.closeEvt).pendingTimers = s.pendingTimers + 1 := by
  intro s i hc ho hp hfc hK
  have h1 : step s Event.openEvt
      = { s with conn := ConnState.opened, disconnects := 0 } := by
    have hcond : s.clientExists = true ∧ s.conn = ConnState.connecting := ⟨hc, ho⟩
    simp only [step, if_pos hcond]
  have h2 : run s [Event.openEvt, Event.requestOk i]
      = step (step s Event.openEvt) (Event.requestOk i) := rfl
  have hp2 : (step s Event.openEvt).pendingRequest = true := by
    rw [h1]
    exact hp
  obtain ⟨f1, f2, f3, f4, f5, f6, f7⟩ :=
    step_requestOk_fields (step s Event.openEvt) i hp2
  have hT1 : (step (step s Event.openEvt) (Event.requestOk i)).clientExists
      = true := by
    rw [f4, h1]
    exact hc
  have hT2 : (step (step s Event.openEvt) (Event.requestOk i)).conn
      = ConnState.opened := by
    rw [f5, h1]
  have hT3 : (step (step s Event.openEvt) (Event.requestOk i)).forceClose
      = false := by
    rw [f6, h1]
    exact hfc
  have hT4 : (step (step s Event.openEvt) (Event.requestOk i)).disconnects
      = 0 := by
    rw [f1, h1]
  have hT5 : 1 ≤ (step (step s Event.openEvt)
      (Event.requestOk i)).opts.maxReconnects := by
    rw [f7, h1]
    exact hK
  refine ⟨?_, ?_, ?_⟩
  · rw [h2]
    exact hT4
  · rw [h2]
    exact f2
  · rw [h2, step_close_schedules _ hT1 hT2 hT3 hT4 hT5, f3, h1]

/-- Witness for C8 at the fresh engine state with identity 9. -/
theorem c8_reconnect_resets_counter_witness :
    (run (initState headBlockRequest DEFAULT_CLIENT_OPTIONS
        DEFAULT_STREAM_OPTIONS) [Event.openEvt, Event.requestOk 9]).disconnects
      = 0 ∧
    (run (initState headBlockRequest DEFAULT_CLIENT_OPTIONS
        DEFAULT_STREAM_OPTIONS)
        [Event.openEvt, Event.requestOk 9]).subscriptionId = 9 ∧
    (step (run (initState headBlockRequest DEFAULT_CLIENT_OPTIONS
          DEFAULT_STREAM_OPTIONS) [Event.openEvt, Event.requestOk 9])
        Event.closeEvt).pendingTimers
      = (initState headBlockRequest DEFAULT_CLIENT_OPTIONS
          DEFAULT_STREAM_OPTIONS).pendingTimers + 1 :=
  c8_reconnect_resets_counter
    (initState headBlockRequest DEFAULT_CLIENT_OPTIONS DEFAULT_STREAM_OPTIONS)
    9 rfl rfl rfl rfl (by decide)

/-- Claim C9: the handle's `close()` is idempotent — any `n ≥ 1` consecutive
calls leave the same end state as a single call, and a single call closes the
underlying transport at most once (no duplicate transport-close side
effect). -/
theorem c9_close_idempotent :
    ∀ (s : EngineState) (n : Nat), 1 ≤ n →
      run s (List.replicate n Event.callClose) = run s [Event.callClose] ∧
      (run s [Event.callClose]).transportCloses ≤ s.transportCloses + 1 := by
  intro s n hn
  constructor
  · obtain ⟨m, rfl⟩ : ∃ m, n = m + 1 := ⟨n - 1, by omega⟩
    clear hn
    induction m generalizing s with
    | zero => rfl
    | succ k ih =>
      rw [List.replicate_succ, run_cons, ih (step s Event.callClose)]
      show step (step s Event.callClose) Event.callClose
          = step s Event.callClose
      exact step_close_close s
  · by_cases h : s.clientExists = true ∧ ¬s.conn = ConnState.closed
    · simp [run, step, h]
    · simp [run, step, h]

/-- Witness for C9: two consecutive `close()` calls on a live subscription. -/
theorem c9_close_idempotent_witness :
    run closeDemoState (List.replicate 2 Event.callClose)
        = run closeDemoState [Event.callClose] ∧
    (run closeDemoState [Event.callClose]).transportCloses
        ≤ closeDemoState.transportCloses + 1 :=
  c9_close_idempotent closeDemoState 2 (by decide)

end NimiqRpc
